import Mathlib

/-!
Shallow embedding of `src/Options.ts` from JonDotsoy/astro-browser.

The source is a Deno/puppeteer automation layer.  We embed:

* the `Item` selector builder and its `toCSSSelector` compilation
  (pure string code, embedded directly);
* the resolution engine (`Astro.waitItem`, `Astro.getPageOrFrame`,
  `Astro.contentFrame`, `Astro.getValueOfAttribute`, `Astro.waitLoad`,
  `Astro.close`).  Asynchronous browser effects are modelled by explicit
  oracles: a poll stream `Nat → Except Unit (Option Elem)` gives the result
  of the structural query performed at each iteration of a retry loop
  (`.error` = the query itself threw, `.ok none` = no element found,
  `.ok (some e)` = element found), a `World` gives the element an `Item`
  resolves to inside a frame, and unbounded `while (true)` loops are run
  with explicit fuel, returning `none`/a "still running" marker when the
  fuel is exhausted.
-/

/-- Element handle as seen by the engine: its rendered text, its attribute
list, and the nested browsing context returned by `contentFrame()` (`none`
when the element has no frame). -/
structure Elem where
  innerText : String
  attributes : List (String × String)
  contentFrame : Option Nat
deriving DecidableEq

/-- Selector specification, from `class Item` in `src/Options.ts`.
`deep` nests a descendant selector, hence the inductive type. -/
inductive Item : Type where
  | mk (matchText : Option String) (cssSelectorTagName : Option String)
      (cssSelectorId : Option String) (cssSelectorClassNames : List String)
      (cssSelectorAttributes : List (String × Option String))
      (deep : Option Item) : Item

/-- Item constructed by `new Item()`: every optional field unset, both lists
empty. -/
def Item.empty : Item := .mk none none none [] [] none

/-- Projection of the `matchText` field. -/
def Item.matchText : Item → Option String
  | .mk m _ _ _ _ _ => m

/-- Projection of the `cssSelectorAttributes` field. -/
def Item.cssSelectorAttributes : Item → List (String × Option String)
  | .mk _ _ _ _ a _ => a

/-- Builder `withDeep`, which sets the `deep` field. -/
def Item.withDeep : Item → Item → Item
  | .mk m t i c a _, d => .mk m t i c a (some d)

/-- Builder `byID`, which sets the `cssSelectorId` field. -/
def Item.byID : Item → String → Item
  | .mk m t _ c a d, v => .mk m t (some v) c a d

/-- Builder `withTagName`, which sets the `cssSelectorTagName` field. -/
def Item.withTagName : Item → String → Item
  | .mk m _ i c a d, n => .mk m (some n) i c a d

/-- Builder `withText`, which sets the `matchText` field. -/
def Item.withText : Item → String → Item
  | .mk _ t i c a d, v => .mk (some v) t i c a d

/-- Builder `withClassNames`, which pushes onto `cssSelectorClassNames`. -/
def Item.withClassNames : Item → String → Item
  | .mk m t i c a d, n => .mk m t i (c ++ [n]) a d

/-- Builder `withAttribute`, which pushes a `(name, optional value)` pair
onto `cssSelectorAttributes`. -/
def Item.withAttribute : Item → String → Option String → Item
  | .mk m t i c a d, n, v => .mk m t i c (a ++ [(n, v)]) d

/-- Hexadecimal digit character, for `\uXXXX` escapes. -/
def hexDigit (n : Nat) : Char :=
  if n < 10 then Char.ofNat (48 + n) else Char.ofNat (87 + n)

/-- Four-digit hexadecimal rendering of a code point below 0x10000. -/
def hex4 (n : Nat) : String :=
  String.mk [hexDigit (n / 4096 % 16), hexDigit (n / 256 % 16),
    hexDigit (n / 16 % 16), hexDigit (n % 16)]

/-- Escape a single character the way `JSON.stringify` renders it inside a
string literal. -/
def jsonEscapeChar (c : Char) : String :=
  if c = Char.ofNat 34 then String.mk [Char.ofNat 92, Char.ofNat 34]
  else if c = Char.ofNat 92 then String.mk [Char.ofNat 92, Char.ofNat 92]
  else if c = Char.ofNat 10 then String.mk [Char.ofNat 92, 'n']
  else if c = Char.ofNat 13 then String.mk [Char.ofNat 92, 'r']
  else if c = Char.ofNat 9 then String.mk [Char.ofNat 92, 't']
  else if c = Char.ofNat 8 then String.mk [Char.ofNat 92, 'b']
  else if c = Char.ofNat 12 then String.mk [Char.ofNat 92, 'f']
  else if c.toNat < 32 then String.mk [Char.ofNat 92, 'u'] ++ hex4 c.toNat
  else String.singleton c

/-- `JSON.stringify` applied to a string: double quotes around the escaped
characters. -/
def jsonStringify (s : String) : String :=
  String.singleton (Char.ofNat 34)
    ++ String.join (s.data.map jsonEscapeChar)
    ++ String.singleton (Char.ofNat 34)

/-- Compilation `Item.toCSSSelector`, translated line by line from the
source.  JavaScript truthiness makes an empty-string id, attribute name or
attribute value behave like an absent one; the tag name uses `??` so an
empty string is kept.  The attribute terms are produced by `.map` with no
`.join`, so interpolating them into the template literal stringifies the
array, which in JavaScript joins its elements with a comma. -/
def Item.toCSSSelector : Item → String
  | .mk _ tagName idv classNames attributes deep =>
    let classNameSelectors := String.join (classNames.map (fun e => "." ++ e))
    let idSelector := match idv with
      | some s => if s = "" then "" else "#" ++ s
      | none => ""
    let tagNameSelector := tagName.getD ""
    let attributesSelectors := attributes.map (fun p =>
      let V := match p.2 with
        | some v => if v = "" then "" else "=" ++ jsonStringify v
        | none => ""
      if p.1 = "" then "" else "[" ++ p.1 ++ V ++ "]")
    let deepSelector := match deep with
      | some d => " " ++ Item.toCSSSelector d
      | none => ""
    tagNameSelector ++ idSelector ++ classNameSelectors
      ++ String.intercalate "," attributesSelectors ++ deepSelector

/-- C1: the claim says the bracketed attribute terms are rendered
consecutively with nothing between them.  In the source the attribute terms
are an array interpolated without `.join("")`, so JavaScript joins them with
a comma: `Item().withAttribute("a").withAttribute("b")` compiles to
`"[a],[b]"`, and the order example of the spec extended with a second attribute
gets a comma before it as well.  This theorem evaluates the embedded code at
those failing inputs. -/
theorem C1_attr_comma :
    ((Item.empty.withAttribute "a" none).withAttribute "b" none).toCSSSelector
        = "[a],[b]" ∧
    Item.toCSSSelector
        ((((((Item.empty.withTagName "div").byID "x").withClassNames
          "a").withClassNames "b").withAttribute "data-t"
          (some "1")).withAttribute "q" none)
        = "div#x.a.b[data-t=" ++ String.singleton (Char.ofNat 34) ++ "1"
          ++ String.singleton (Char.ofNat 34) ++ "],[q]" := by
  constructor <;> rfl

/-!
Resolution engine.  A poll stream `polls : Nat → Except Unit (Option Elem)`
gives the outcome of the structural query `mainPage.$(selector)` performed at
loop iteration `i` of `Astro.waitItem` (static): `.error ()` means the query
itself threw, `.ok none` means no element matched, `.ok (some e)` means the
query found `e`.  A sleep of 200 ms separates consecutive iterations, so an
element returned at iteration `i` was found after `i` backoff waits.
-/

/-- Run of `Astro.waitItem` (static) without `matchText`: loop querying
`mainPage.$`, return the element when found, otherwise sleep 200 ms and
retry.  There is no try/catch in the loop, so a query error is returned as
`.error` immediately.  `i` is the current iteration index (equal to the
number of 200 ms sleeps already performed); the fuel bounds how many more
iterations we run, `.ok none` meaning the loop was still running when the
fuel ran out.  On success the result carries the element and the number of
sleeps performed before it was found. -/
def waitItemRun (polls : Nat → Except Unit (Option Elem)) (i : Nat) :
    Nat → Except Unit (Option (Elem × Nat))
  | 0 => .ok none
  | fuel + 1 =>
    match polls i with
    | .error e => .error e
    | .ok (some elm) => .ok (some (elm, i))
    | .ok none => waitItemRun polls (i + 1) fuel

/-- The `for (const elm of ...)` scan of the `matchText` branch: return the
first candidate whose `innerText` matches the pattern under the JavaScript
`String.prototype.match` test, which we abstract as a boolean predicate
`jsMatch text pattern`. -/
def findTextMatch (jsMatch : String → String → Bool) (pattern : String) :
    List Elem → Option Elem
  | [] => none
  | e :: rest =>
    if jsMatch e.innerText pattern then some e
    else findTextMatch jsMatch pattern rest

/-- Run of `Astro.waitItem` (static) with `matchText` set: each iteration
queries all structural candidates (`mainPage.$$`, given by the oracle
`queryAll` at each iteration), scans them in document order for the first
text match, and otherwise sleeps 200 ms and retries.  A query error again
propagates, there being no try/catch in the loop. -/
def waitItemMatchRun (jsMatch : String → String → Bool) (pattern : String)
    (queryAll : Nat → Except Unit (List Elem)) (i : Nat) :
    Nat → Except Unit (Option (Elem × Nat))
  | 0 => .ok none
  | fuel + 1 =>
    match queryAll i with
    | .error e => .error e
    | .ok cs =>
      match findTextMatch jsMatch pattern cs with
      | some elm => .ok (some (elm, i))
      | none => waitItemMatchRun jsMatch pattern queryAll (i + 1) fuel

/-- Resolution oracle for the frame chain: `resolve f item` is the element
that `Astro.waitItem(f, item)` eventually returns inside frame context `f`
(frame contexts are numbered; the `contentFrame` field of the element is its
nested browsing context, if any). -/
structure World where
  resolve : Nat → Item → Elem

/-- One attempt of the chain walk inside `Astro.getPageOrFrame`: the
`for (const item of p)` loop resolving each item to an element and then to
its nested browsing context.  When `contentFrame()` is null the source
throws `Failed get content frame`, which aborts the remaining steps of this
attempt. -/
def chainStep (w : World) (f : Nat) : List Item → Except Unit Nat
  | [] => .ok f
  | item :: rest =>
    match (w.resolve f item).contentFrame with
    | some f2 => chainStep w f2 rest
    | none => .error ()

/-- The `while (true)` loop of `Astro.getPageOrFrame` over an array chain:
each attempt runs `chainStep` from the main page; on any thrown error the
`catch` block sleeps 200 ms and the loop retries.  The run is fuelled by the
number of attempts allowed and returns the resolved frame context (if any
attempt succeeded) together with the number of attempts performed. -/
def getPageOrFrameLoop (w : World) (p : Nat) (chain : List Item) :
    Nat → Option Nat × Nat
  | 0 => (none, 0)
  | fuel + 1 =>
    match chainStep w p chain with
    | .ok f => (some f, 1)
    | .error _ =>
      let r := getPageOrFrameLoop w p chain fuel
      (r.1, r.2 + 1)

/-- Session context, from `class Astro`: optional browser handle, optional
main page, optional frame-selector chain and optional CDP session.  Handles
are numbered abstractly. -/
structure Astro where
  _browser : Option Nat
  _mainPage : Option Nat
  _frameSelector : Option (List Item)
  session : Option Nat

/-- Run of `Astro.close`: when a browser handle is present its `close()` is
awaited, otherwise nothing happens.  The first component lists the browser
handles whose teardown was attempted, the second is the outcome, where the
external `browser.close()` behaviour is the oracle `closeBrowser`. -/
def Astro.closeRun (closeBrowser : Nat → Except Unit Unit) (a : Astro) :
    List Nat × Except Unit Unit :=
  match a._browser with
  | some b => ([b], closeBrowser b)
  | none => ([], .ok ())

/-- Run of `Astro.contentFrame`: build the derived instance
`new Astro(this.browser, this.mainPage, [...this._frameSelector ?? [], item],
this.session)` — the two getters throw when their handle is absent — then
await `this.getPageOrFrame()`, which resolves the ORIGINAL chain
`this._frameSelector` (throwing `Cannot found Page or Frame` when it is not
an array), and finally return the derived instance.  The successful result
carries the derived instance and the loop run of that validation
resolution. -/
def Astro.contentFrameRun (w : World) (a : Astro) (item : Item) (fuel : Nat) :
    Except String (Astro × (Option Nat × Nat)) :=
  match a._browser with
  | none => .error "Cannot found browser instance"
  | some b =>
    match a._mainPage with
    | none => .error "Cannot found page instance"
    | some p =>
      let newAstro : Astro :=
        ⟨some b, some p, some ((a._frameSelector.getD []) ++ [item]), a.session⟩
      match a._frameSelector with
      | none => .error "Cannot found Page or Frame"
      | some chain => .ok (newAstro, getPageOrFrameLoop w p chain fuel)

/-- Run of `Astro.getValueOfAttribute` with the frame context already
resolved: first `waitItem` resolves the element through the poll stream,
then `elm.attributes[attribute].value` is read — when the attribute is
absent, `elm.attributes[attribute]` is undefined and reading `.value` throws,
which propagates (there is no catch).  `.ok none` means the resolution loop
was still running when the fuel ran out. -/
def getValueOfAttributeRun (polls : Nat → Except Unit (Option Elem))
    (attrName : String) (fuel : Nat) : Except Unit (Option String) :=
  match waitItemRun polls 0 fuel with
  | .error e => .error e
  | .ok none => .ok none
  | .ok (some (elm, _)) =>
    match elm.attributes.find? (fun p => p.1 = attrName) with
    | some p => .ok (some p.2)
    | none => .error ()

/-- The quiet window of `Astro.waitLoad`: `const t = 2_000`. -/
def waitLoadQuietWindow : Nat := 2000

/-- Resolution time of `Astro.waitLoad` over a sorted list of response-event
timestamps: each event clears the pending timer and arms a new one `t`
milliseconds out, so the promise resolves at `e + t` for the first event `e`
that is not followed by another event strictly before `e + t`; with no event
the timer is never armed and the promise never resolves. -/
def waitLoadResolveTime (t : Nat) : List Nat → Option Nat
  | [] => none
  | [e] => some (e + t)
  | e1 :: e2 :: rest =>
    if e2 < e1 + t then waitLoadResolveTime t (e2 :: rest)
    else some (e1 + t)

/-!
Helper lemmas and concrete instantiation material.
-/

/-- Concrete element with no nested browsing context. -/
def noFrameElem : Elem := ⟨"", [], none⟩

/-- World in which no element carries a nested browsing context. -/
def noFrameWorld : World := ⟨fun _ _ => noFrameElem⟩

/-- Poll stream whose every query throws. -/
def errPolls : Nat → Except Unit (Option Elem) := fun _ => .error ()

/-- Poll stream whose every query finds nothing. -/
def nonePolls : Nat → Except Unit (Option Elem) := fun _ => .ok none

/-- Splitting a chain walk at a list append: the walk of `pre ++ rest`
first walks `pre` and, if that succeeded, walks `rest` from the frame it
reached. -/
theorem chainStep_append (w : World) (pre : List Item) :
    ∀ (f0 : Nat) (rest : List Item),
      chainStep w f0 (pre ++ rest)
        = match chainStep w f0 pre with
          | .ok f => chainStep w f rest
          | .error e => .error e := by
  induction pre with
  | nil => intro f0 rest; rfl
  | cons item pre ih =>
    intro f0 rest
    simp only [List.cons_append, chainStep]
    cases (w.resolve f0 item).contentFrame with
    | some f2 => exact ih f2 rest
    | none => rfl

/-- A poll stream that returns nothing `k` times from index `i` on and then
finds `e` makes `waitItemRun` return `e` with sleep count `i + k`, for any
fuel above `k`. -/
theorem waitItemRun_found (polls : Nat → Except Unit (Option Elem)) :
    ∀ (k i fuel : Nat) (e : Elem), k < fuel →
      (∀ j, j < k → polls (i + j) = .ok none) →
      polls (i + k) = .ok (some e) →
      waitItemRun polls i fuel = .ok (some (e, i + k)) := by
  intro k
  induction k with
  | zero =>
    intro i fuel e hf _ h2
    match fuel, hf with
    | fuel + 1, _ =>
      simp only [waitItemRun]
      rw [show i + 0 = i from rfl] at h2
      rw [h2]
      rfl
  | succ k ih =>
    intro i fuel e hf h1 h2
    match fuel, hf with
    | fuel + 1, hf =>
      have h0 : polls i = .ok none := by
        have h := h1 0 (Nat.succ_pos k)
        simpa using h
      simp only [waitItemRun, h0]
      have hrec := ih (i + 1) fuel e (Nat.lt_of_succ_lt_succ hf)
        (fun j hj => by
          have h := h1 (j + 1) (Nat.succ_lt_succ hj)
          have heq : i + 1 + j = i + (j + 1) := by omega
          rw [heq]
          exact h)
        (by
          have heq : i + 1 + k = i + (k + 1) := by omega
          rw [heq]
          exact h2)
      have heq : i + (k + 1) = i + 1 + k := by omega
      rw [heq]
      exact hrec

/-- A poll stream that never finds anything keeps `waitItemRun` looping for
every amount of fuel. -/
theorem waitItemRun_none (polls : Nat → Except Unit (Option Elem))
    (h : ∀ i, polls i = .ok none) :
    ∀ (fuel i : Nat), waitItemRun polls i fuel = .ok none := by
  intro fuel
  induction fuel with
  | zero => intro i; rfl
  | succ fuel ih =>
    intro i
    simp only [waitItemRun, h i]
    exact ih (i + 1)

/-- Claim C2, counterexample.  The claim says a chain step whose element
lacks a nested browsing context makes the resolution fail with an error
surfaced to the caller, fatally, with no retry.  In the source the thrown
`Failed get content frame` is caught by the `catch` of the `while (true)`
loop, which sleeps 200 ms and retries: here the single-item chain whose
element has no frame is attempted three times in a row (attempt counter 3),
the loop is still running, and no error appears in the outcome. -/
theorem C2_counterexample :
    (noFrameWorld.resolve 0 Item.empty).contentFrame = none ∧
    getPageOrFrameLoop noFrameWorld 0 [Item.empty] 3 = (none, 3) :=
  ⟨rfl, rfl⟩

/-- Claim C2, amended: when a chain step resolves to an element without a
nested browsing context, that attempt of `getPageOrFrame` raises internally
and performs no further chain steps, but the error is caught by the retry
loop, which backs off 200 ms and re-attempts the whole chain; no error is
surfaced to the caller.  Formally: the chain walk errors as soon as the walk
of the prefix reaches frame `f` and the next item resolves to a frameless
element, regardless of the remaining steps `post`; and granting the loop one
more attempt of fuel leaves the outcome unchanged while increasing the
attempt counter, i.e. the failure is retried, not surfaced. -/
theorem C2_frame_chain_retry (w : World) (p f : Nat) (pre post : List Item)
    (bad : Item) (n : Nat)
    (hpre : chainStep w p pre = .ok f)
    (hbad : (w.resolve f bad).contentFrame = none) :
    chainStep w p (pre ++ bad :: post) = .error () ∧
    getPageOrFrameLoop w p (pre ++ bad :: post) (n + 1)
      = ((getPageOrFrameLoop w p (pre ++ bad :: post) n).1,
         (getPageOrFrameLoop w p (pre ++ bad :: post) n).2 + 1) := by
  have hstep : chainStep w p (pre ++ bad :: post) = .error () := by
    rw [chainStep_append w pre p (bad :: post), hpre]
    simp [chainStep, hbad]
  refine ⟨hstep, ?_⟩
  simp [getPageOrFrameLoop, hstep]

/-- Witness for the amended C2, at the one-item chain in the world without
frames, with one unit of fuel already spent. -/
theorem C2_frame_chain_retry_witness :
    chainStep noFrameWorld 0 ([] ++ Item.empty :: []) = .error () ∧
    getPageOrFrameLoop noFrameWorld 0 ([] ++ Item.empty :: []) (1 + 1)
      = ((getPageOrFrameLoop noFrameWorld 0 ([] ++ Item.empty :: []) 1).1,
         (getPageOrFrameLoop noFrameWorld 0 ([] ++ Item.empty :: []) 1).2 + 1) :=
  C2_frame_chain_retry noFrameWorld 0 0 [] [] Item.empty 1 rfl rfl

/-- Claim C3, counterexample.  The claim says `contentFrame(item)` eagerly
validates the NEW chain including the appended item, so that an item that
never resolves to a frame-bearing element fails at the call.  In the source
the validation is `await this.getPageOrFrame()` on the ORIGINAL instance:
with an empty original chain, the validation succeeds at once, and
`contentFrame` returns the derived instance normally even though the
appended item never resolves to a frame-bearing element in this world. -/
theorem C3_counterexample :
    (noFrameWorld.resolve 0 Item.empty).contentFrame = none ∧
    Astro.contentFrameRun noFrameWorld ⟨some 0, some 0, some [], some 0⟩
        Item.empty 1
      = .ok (⟨some 0, some 0, some [Item.empty], some 0⟩, (some 0, 1)) :=
  ⟨rfl, rfl⟩

/-- Claim C3, amended: `contentFrame(item)` returns a new engine instance
whose navigation chain is the current chain with `item` appended, and before
returning performs one frame-context resolution of the ORIGINAL chain only
(the appended item excluded); resolvability of the appended item is not
validated, and the run succeeds whatever `item` is, deferring any failure to
the first use of the derived context.  Formally: whenever the browser and
page handles are present and the chain is an array, the run returns the
derived instance together with a validation loop over `chain`, with `item`
appearing only in the derived chain, never in what is resolved. -/
theorem C3_contentFrame_validates_old_chain (w : World) (a : Astro)
    (item : Item) (b p fuel : Nat) (chain : List Item)
    (hb : a._browser = some b) (hp : a._mainPage = some p)
    (hc : a._frameSelector = some chain) :
    Astro.contentFrameRun w a item fuel
      = .ok (⟨some b, some p, some (chain ++ [item]), a.session⟩,
             getPageOrFrameLoop w p chain fuel) := by
  simp [Astro.contentFrameRun, hb, hp, hc]

/-- Witness for the amended C3 at a concrete instance with an empty chain in
the world without frames. -/
theorem C3_contentFrame_validates_old_chain_witness :
    Astro.contentFrameRun noFrameWorld ⟨some 4, some 5, some [], some 6⟩
        Item.empty 2
      = .ok (⟨some 4, some 5, some ([] ++ [Item.empty]),
             (⟨some 4, some 5, some [], some 6⟩ : Astro).session⟩,
             getPageOrFrameLoop noFrameWorld 5 [] 2) :=
  C3_contentFrame_validates_old_chain noFrameWorld
    ⟨some 4, some 5, some [], some 6⟩ Item.empty 4 5 2 [] rfl rfl rfl

/-- Claim C9: entering a nested frame is copy-with-append, not mutation.
The derived instance returned by `contentFrame` carries the original chain
with `item` appended, and its browser, page and protocol-session fields are
the very handles of the original instance.  The embedding is pure, mirroring
that the source assigns to no field of `this`: the original `Astro` value is
untouched by the call. -/
theorem C9_copy_with_append (w : World) (a : Astro) (item : Item)
    (b p fuel : Nat) (chain : List Item)
    (hb : a._browser = some b) (hp : a._mainPage = some p)
    (hc : a._frameSelector = some chain) :
    ∃ na v, Astro.contentFrameRun w a item fuel = .ok (na, v) ∧
      na._browser = a._browser ∧ na._mainPage = a._mainPage ∧
      na.session = a.session ∧
      na._frameSelector = some (chain ++ [item]) := by
  refine ⟨⟨some b, some p, some (chain ++ [item]), a.session⟩,
    getPageOrFrameLoop w p chain fuel, ?_, hb.symm, hp.symm, rfl, rfl⟩
  simp [Astro.contentFrameRun, hb, hp, hc]

/-- Witness for C9 at a concrete instance with a one-item chain. -/
theorem C9_copy_with_append_witness :
    ∃ na v, Astro.contentFrameRun noFrameWorld
        ⟨some 7, some 8, some [Item.empty], some 9⟩ (Item.empty.byID "z") 1
      = .ok (na, v) ∧
      na._browser = (⟨some 7, some 8, some [Item.empty], some 9⟩ : Astro)._browser ∧
      na._mainPage = (⟨some 7, some 8, some [Item.empty], some 9⟩ : Astro)._mainPage ∧
      na.session = (⟨some 7, some 8, some [Item.empty], some 9⟩ : Astro).session ∧
      na._frameSelector = some ([Item.empty] ++ [Item.empty.byID "z"]) :=
  C9_copy_with_append noFrameWorld ⟨some 7, some 8, some [Item.empty], some 9⟩
    (Item.empty.byID "z") 7 8 1 [Item.empty] rfl rfl rfl

/-- Claim C4, counterexample.  The claim says an error raised during the
structural query is swallowed by `waitItem` and treated like "not found",
retrying after the backoff.  In the source the `while (true)` loop of the
static `waitItem` has no try/catch, so the very first query error is
returned to the caller: were it swallowed and retried, five units of fuel
over an always-throwing query would leave the loop still running
(`.ok none`), not return `.error ()`. -/
theorem C4_counterexample : waitItemRun errPolls 0 5 = .error () := rfl

/-- Claim C4, amended: an error raised during the structural query
propagates out of `waitItem` at once; only the element not being found
triggers the 200 ms backoff-and-retry.  (Swallow-and-retry of thrown errors
exists one level up, in the chain loop of `getPageOrFrame`, not in
`waitItem`.)  Formally: a query error at the current iteration makes the run
return that error whatever fuel remains, while a not-found result makes the
run continue with the next iteration. -/
theorem C4_query_error_propagates
    (polls polls2 : Nat → Except Unit (Option Elem)) (i fuel : Nat)
    (h : polls i = .error ()) (h2 : polls2 i = .ok none) :
    waitItemRun polls i (fuel + 1) = .error () ∧
    waitItemRun polls2 i (fuel + 1) = waitItemRun polls2 (i + 1) fuel := by
  constructor
  · simp only [waitItemRun, h]
  · simp only [waitItemRun, h2]

/-- Witness for the amended C4 at the always-throwing and the always-empty
poll streams. -/
theorem C4_query_error_propagates_witness :
    waitItemRun errPolls 0 (1 + 1) = .error () ∧
    waitItemRun nonePolls 0 (1 + 1) = waitItemRun nonePolls (0 + 1) 1 :=
  C4_query_error_propagates errPolls nonePolls 0 1 rfl rfl

/-- Claim C5: when the structural query finds nothing on the first `N`
polls and yields `e` on poll `N + 1`, `waitItem` returns `e`, and the sleep
counter it returns records exactly `N` elapsed 200 ms backoff waits; and a
query that never finds anything keeps the loop running for every amount of
fuel — there is no timeout. -/
theorem C5_retry_until_success
    (polls polls2 : Nat → Except Unit (Option Elem)) (N fuel : Nat) (e : Elem)
    (h1 : ∀ i, i < N → polls i = .ok none)
    (h2 : polls N = .ok (some e))
    (hall : ∀ i, polls2 i = .ok none) :
    waitItemRun polls 0 (N + 1) = .ok (some (e, N)) ∧
    waitItemRun polls2 0 fuel = .ok none := by
  constructor
  · have h := waitItemRun_found polls N 0 (N + 1) e (Nat.lt_succ_self N)
      (fun j hj => by simpa using h1 j hj) (by simpa using h2)
    simpa using h
  · exact waitItemRun_none polls2 hall fuel 0

/-- Concrete element used by poll-stream witnesses. -/
def demoElem : Elem := ⟨"t", [("x", "1")], none⟩

/-- Poll stream finding nothing on the first two polls and `demoElem` from
the third on. -/
def demoPolls : Nat → Except Unit (Option Elem) := fun i =>
  if i < 2 then .ok none else .ok (some demoElem)

/-- Witness for C5 at `demoPolls`, with two empty polls before success. -/
theorem C5_retry_until_success_witness :
    waitItemRun demoPolls 0 (2 + 1) = .ok (some (demoElem, 2)) ∧
    waitItemRun nonePolls 0 7 = .ok none :=
  C5_retry_until_success demoPolls nonePolls 2 7 demoElem
    (by intro i hi; interval_cases i <;> rfl) rfl (fun _ => rfl)

/-- The document-order scan of the `matchText` branch returns the candidate
at index `i` whenever that candidate matches and every earlier candidate
does not. -/
theorem findTextMatch_first (jsMatch : String → String → Bool)
    (pattern : String) :
    ∀ (cs : List Elem) (i : Nat) (h1 : i < cs.length),
      jsMatch (cs.get ⟨i, h1⟩).innerText pattern = true →
      (∀ j, j < i → ∃ hj : j < cs.length,
        jsMatch (cs.get ⟨j, hj⟩).innerText pattern = false) →
      findTextMatch jsMatch pattern cs = some (cs.get ⟨i, h1⟩) := by
  intro cs
  induction cs with
  | nil => intro i h1; exact absurd h1 (by simp)
  | cons c rest ih =>
    intro i h1 h2 h3
    cases i with
    | zero =>
      simp only [List.get] at h2
      simp [findTextMatch, h2]
    | succ i =>
      have hc : jsMatch c.innerText pattern = false := by
        obtain ⟨_, hj⟩ := h3 0 (Nat.succ_pos i)
        simpa using hj
      simp only [findTextMatch, hc, Bool.false_eq_true, if_false]
      have h1r : i < rest.length := Nat.lt_of_succ_lt_succ h1
      have := ih i h1r (by simpa using h2)
        (fun j hj => by
          obtain ⟨hjl, hjm⟩ := h3 (j + 1) (Nat.succ_lt_succ hj)
          exact ⟨Nat.lt_of_succ_lt_succ hjl, by simpa using hjm⟩)
      simpa using this

/-- Claim C6: with `matchText` set, `waitItem` queries all structural
candidates in the frame, scans them in document order and returns the first
whose text content matches the pattern, skipping every earlier candidate
whose text does not match even though it matched structurally.  Formally:
over a frame whose structural query yields the candidate list `cs`, when the
candidate at index `i` matches and all earlier ones do not, the run returns
that candidate on the first iteration. -/
theorem C6_text_match_first_wins (jsMatch : String → String → Bool)
    (pattern : String) (cs : List Elem) (i : Nat) (h1 : i < cs.length)
    (h2 : jsMatch (cs.get ⟨i, h1⟩).innerText pattern = true)
    (h3 : ∀ j, j < i → ∃ hj : j < cs.length,
      jsMatch (cs.get ⟨j, hj⟩).innerText pattern = false) :
    waitItemMatchRun jsMatch pattern (fun _ => .ok cs) 0 1
      = .ok (some (cs.get ⟨i, h1⟩, 0)) := by
  have h := findTextMatch_first jsMatch pattern cs i h1 h2 h3
  simp only [waitItemMatchRun, h]

/-- Witness for C6: two structurally-equal candidates, the first with
non-matching text, the second matching; the scan returns the second. -/
theorem C6_text_match_first_wins_witness :
    waitItemMatchRun (fun t p => t == p) "yes"
        (fun _ => .ok [⟨"no", [], none⟩, ⟨"yes", [], none⟩]) 0 1
      = .ok (some (([⟨"no", [], none⟩, ⟨"yes", [], none⟩] : List Elem).get
          ⟨1, by decide⟩, 0)) :=
  C6_text_match_first_wins (fun t p => t == p) "yes"
    [⟨"no", [], none⟩, ⟨"yes", [], none⟩] 1 (by decide) (by decide)
    (by intro j hj; interval_cases j; exact ⟨by decide, by decide⟩)

/-- A timestamp list all of whose consecutive gaps are below the quiet
window resolves the wait at the final event plus the window: each event
clears the pending timer and re-arms it. -/
theorem waitLoadResolveTime_last (t : Nat) :
    ∀ (es : List Nat) (last : Nat),
      List.Chain' (fun x y => y < x + t) (es ++ [last]) →
      waitLoadResolveTime t (es ++ [last]) = some (last + t) := by
  intro es
  induction es with
  | nil => intro last _; rfl
  | cons a es ih =>
    intro last h
    cases es with
    | nil =>
      have hab : last < a + t := by
        simp only [List.nil_append, List.cons_append] at h
        exact (List.chain'_cons.mp h).1
      simp [waitLoadResolveTime, hab]
    | cons b es2 =>
      simp only [List.cons_append] at h ⊢
      have hc := List.chain'_cons.mp h
      simp only [waitLoadResolveTime, if_pos hc.1]
      have hr := ih last (by simpa using hc.2)
      simpa using hr

/-- Claim C7: `waitLoad` resolves exactly the 2000 ms quiet window after the
last observed response event, each event strictly inside the pending window
resetting the timer.  Formally: for any event timestamps whose consecutive
gaps are all strictly below the window, the wait resolves at the final
timestamp plus the window; in particular events at 0, 1000 and 1800 resolve
the wait at 3800 and not at 2000. -/
theorem C7_network_idle_reset (es : List Nat) (last : Nat)
    (h : List.Chain' (fun x y => y < x + waitLoadQuietWindow) (es ++ [last])) :
    waitLoadResolveTime waitLoadQuietWindow (es ++ [last])
      = some (last + waitLoadQuietWindow) ∧
    waitLoadResolveTime waitLoadQuietWindow [0, 1000, 1800] = some 3800 ∧
    waitLoadQuietWindow = 2000 ∧ (3800 : Nat) ≠ 2000 :=
  ⟨waitLoadResolveTime_last waitLoadQuietWindow es last h, rfl, rfl, by decide⟩

/-- Witness for C7 at the event timestamps 0, 1000, 1800 of the spec. -/
theorem C7_network_idle_reset_witness :
    waitLoadResolveTime waitLoadQuietWindow ([0, 1000] ++ [1800])
      = some (1800 + waitLoadQuietWindow) ∧
    waitLoadResolveTime waitLoadQuietWindow [0, 1000, 1800] = some 3800 ∧
    waitLoadQuietWindow = 2000 ∧ (3800 : Nat) ≠ 2000 :=
  C7_network_idle_reset [0, 1000] 1800 (by
    norm_num [List.chain'_cons, List.chain'_singleton, waitLoadQuietWindow])

/-- Claim C8: once `waitItem` has resolved the element, an absent attribute
makes `getValueOfAttribute` fail at once — the read of
`elm.attributes[attribute].value` throws on the undefined entry and nothing
catches it — and the failure is not retried: the run returns the error for
every amount of fuel beyond the resolution point, so absence of the
attribute on a found element is never treated as the element not being
found. -/
theorem C8_attribute_absent_error (polls : Nat → Except Unit (Option Elem))
    (attrName : String) (N fuel : Nat) (e : Elem)
    (h1 : ∀ i, i < N → polls i = .ok none)
    (h2 : polls N = .ok (some e))
    (h3 : e.attributes.find? (fun p => p.1 = attrName) = none)
    (hf : N < fuel) :
    getValueOfAttributeRun polls attrName fuel = .error () := by
  have hw := waitItemRun_found polls N 0 fuel e hf
    (fun j hj => by simpa using h1 j hj) (by simpa using h2)
  simp only [Nat.zero_add] at hw
  simp only [getValueOfAttributeRun, hw, h3]

/-- Witness for C8: the element found on the third poll has only attribute
`x`, and asking for `y` errors with fuel to spare. -/
theorem C8_attribute_absent_error_witness :
    getValueOfAttributeRun demoPolls "y" 6 = .error () :=
  C8_attribute_absent_error demoPolls "y" 2 6 demoElem
    (by intro i hi; interval_cases i <;> rfl) rfl rfl (by decide)

/-- Claim C10: `close()` on a context without a browser handle is a no-op —
the `if (this._browser)` guard skips teardown entirely, so the call attempts
no teardown action and returns normally whatever the external
`browser.close()` would have done. -/
theorem C10_close_without_browser (closeBrowser : Nat → Except Unit Unit)
    (a : Astro) (h : a._browser = none) :
    Astro.closeRun closeBrowser a = ([], .ok ()) := by
  simp [Astro.closeRun, h]

/-- Witness for C10 at a context with no browser handle and an external
close that would fail were it called. -/
theorem C10_close_without_browser_witness :
    Astro.closeRun (fun _ => .error ()) ⟨none, some 0, some [], none⟩
      = ([], .ok ()) :=
  C10_close_without_browser (fun _ => .error ())
    ⟨none, some 0, some [], none⟩ rfl
